import Mathlib

/-!
Verification of the overseer daemon of `claude-memory`
(`src/skills/overseer.py`), a background daemon that watches a coding
session's transcript, accumulates activity counters, and dispatches a
one-shot worker subprocess when a trigger policy fires.

The embedding below translates the Python methods of class `Overseer`
into pure Lean functions.  Mutable attributes of the object become an
explicit state record (`OState`); methods that mutate `self` return the
updated state; Python exceptions become `Except String`; the external
tokenizer (`tiktoken`, a pure text → count function) is a parameter
`tok : String → Nat`; the filesystem visible through the transcript path
is a parameter `FS`.  JSON values parsed by `json.loads` are modelled by
the inductive `JVal`, and a line of the transcript file is modelled by
`LineContent`: blank after stripping, malformed (fails `json.loads`), or
a parsed value.
-/

/-- A JSON value as produced by `json.loads` (numbers restricted to
integers; the token-counting code never inspects numeric values). -/
inductive JVal where
  | jnull : JVal
  | jbool : Bool → JVal
  | jnum : Int → JVal
  | jstr : String → JVal
  | jarr : List JVal → JVal
  | jobj : List (String × JVal) → JVal

/-- Python `str()` applied to a value that came from `json.loads`
(`str(content)` in `_calculate_new_tokens`).  The exact rendering of
containers is irrelevant to every property below because the token
counter is an abstract function of the string. -/
def pyStr : JVal → String
  | .jnull => "None"
  | .jbool true => "True"
  | .jbool false => "False"
  | .jnum n => toString n
  | .jstr s => s
  | .jarr xs => String.append "[" (String.append (pyStrList xs) "]")
  | .jobj kvs => String.append "\x7b" (String.append (pyStrObj kvs) "\x7d")
where
  pyStrList : List JVal → String
    | [] => ""
    | [x] => pyStr x
    | x :: y :: rest => String.append (pyStr x) (String.append ", " (pyStrList (y :: rest)))
  pyStrObj : List (String × JVal) → String
    | [] => ""
    | [(k, v)] => String.append k (String.append ": " (pyStr v))
    | (k, v) :: p :: rest =>
        String.append k (String.append ": "
          (String.append (pyStr v) (String.append ", " (pyStrObj (p :: rest)))))

/-- One physical line of the transcript file, as seen by the loop in
`_read_transcript`: empty after `strip()`, not valid JSON
(`json.loads` raises `JSONDecodeError`), or a parsed JSON value. -/
inductive LineContent where
  | blank : LineContent
  | malformed : LineContent
  | entry : JVal → LineContent

/-- The filesystem as visible through `open`/`Path.exists`: a path maps
to the list of lines of the file there, or to `none` when no file
exists at that path. -/
def FS : Type := String → Option (List LineContent)

/-- Configuration (`DEFAULT_CONFIG` keys, merged with the config file at
startup; immutable afterwards). -/
structure Config where
  trigger_mode : String
  token_threshold : Nat
  prompt_threshold : Nat
  trigger_on_first_response : Bool
deriving DecidableEq

/-- The mutable attributes of the `Overseer` object that the event flow
touches (`__init__`, lines 29–43 of overseer.py).  `active_agent` is
not modelled: it is `None` again by the `finally:` block every time
`_spawn_agent` returns, so it is `None` at every point visible to the
properties below. -/
structure OState where
  running : Bool
  session_id : Option String
  transcript_path : Option String
  cwd : Option String
  prompt_count : Nat
  response_count : Nat
  tokens_since_last_trigger : Nat
  last_transcript_length : Nat
deriving DecidableEq

/-- The loop body of `_read_transcript` (lines 122–131): strip each
line, skip blanks, `try: append(json.loads(line)) except: continue`. -/
def parseLines : List LineContent → List JVal
  | [] => []
  | .blank :: rest => parseLines rest
  | .malformed :: rest => parseLines rest
  | .entry j :: rest => j :: parseLines rest

/-- `Overseer._read_transcript` (lines 113–131): no path set, or the
file missing, yields `[]`; otherwise every parseable line in order. -/
def readTranscript (fs : FS) (transcript_path : Option String) : List JVal :=
  match transcript_path with
  | none => []
  | some p =>
    match fs p with
    | none => []
    | some lines => parseLines lines

/-- `Overseer._read_transcript_window` (lines 133–136):
`messages[-max_messages:]`.  For a positive `n` the Python slice
`[-n:]` is the last `min n len` elements, i.e. `drop (len - n)`;
for `n = 0` it is `[-0:] = [0:]`, the whole list. -/
def readTranscriptWindow (fs : FS) (transcript_path : Option String)
    (max_messages : Nat := 50) : List JVal :=
  let messages := readTranscript fs transcript_path
  if max_messages = 0 then messages
  else messages.drop (messages.length - max_messages)

/-- Python `d.get(k, default)`: on a dict, the stored value or the
default; on any non-dict value an `AttributeError` is raised. -/
def dictGetD (j : JVal) (k : String) (d : JVal) : Except String JVal :=
  match j with
  | .jobj kvs => .ok ((kvs.lookup k).getD d)
  | _ => .error "AttributeError: object has no attribute get"

/-- Python `d.get(k)` with no default: `None` when the key is absent. -/
def dictGet (j : JVal) (k : String) : Except String JVal :=
  dictGetD j k .jnull

/-- `Overseer._count_tokens` (lines 109–111) on the value
`c.get("text", "")`: `tiktoken`'s `encode` accepts only a string and
raises `TypeError` otherwise. -/
def countTokensVal (tok : String → Nat) (j : JVal) : Except String Nat :=
  match j with
  | .jstr s => .ok (tok s)
  | _ => .error "TypeError: expected a string"

/-- The per-message body of the loop in `_calculate_new_tokens`
(lines 152–164): tokens contributed by one transcript entry, or the
exception the Python loop would raise on it. -/
def tokensOfMsg (tok : String → Nat) (msg : JVal) : Except String Nat := do
  let mtype ← dictGetD msg "type" (.jstr "")
  match mtype with
  | .jstr "human" =>
    let m ← dictGetD msg "message" (.jobj [])
    let content ← dictGetD m "content" (.jstr "")
    pure (tok (pyStr content))
  | .jstr "assistant" =>
    let m ← dictGetD msg "message" (.jobj [])
    let content ← dictGetD m "content" (.jarr [])
    match content with
    | .jarr cs =>
      cs.foldlM (fun acc c => do
        let ctype ← dictGet c "type"
        match ctype with
        | .jstr "text" =>
          let txt ← dictGetD c "text" (.jstr "")
          let n ← countTokensVal tok txt
          pure (acc + n)
        | _ => pure acc) 0
    | _ => pure (tok (pyStr content))
  | _ => pure 0

/-- `Overseer._calculate_new_tokens` (lines 138–166).  Returns the
result of the method (token count, or the exception it raises) paired
with the value of `self.last_transcript_length` on return: the
watermark is written at line 149, before the token loop, so it is
already advanced when the loop raises. -/
def calcNewTokens (tok : String → Nat) (fs : FS) (st : OState) :
    Except String Nat × Nat :=
  let messages := readTranscript fs st.transcript_path
  let current_length := messages.length
  if current_length ≤ st.last_transcript_length then
    (.ok 0, st.last_transcript_length)
  else
    let new_messages := messages.drop st.last_transcript_length
    (new_messages.foldlM (fun acc msg => do
        let n ← tokensOfMsg tok msg
        pure (acc + n)) 0,
     current_length)

/-- The first rule of `_should_trigger_agent` (lines 225–226): the
condition under which the first-response rule fires. -/
def firstResponseRule (cfg : Config) (st : OState) (event_name : String) : Bool :=
  cfg.trigger_on_first_response && event_name == "Stop" && st.response_count == 1

/-- `Overseer._should_trigger_agent` (lines 222–240). -/
def shouldTriggerAgent (cfg : Config) (st : OState) (event_name : String) : Bool :=
  if cfg.trigger_on_first_response && event_name == "Stop" && st.response_count == 1 then
    true
  else if cfg.trigger_mode == "tokens" then
    st.tokens_since_last_trigger ≥ cfg.token_threshold
  else
    st.prompt_count ≥ cfg.prompt_threshold

/-- Outcome of one worker dispatch, decided by the environment:
`exited rc out` when `communicate` returns (the worker terminated with
exit status `rc` and standard output `out`), `timeoutExpired` when
`communicate` raises `TimeoutExpired` at the 300 s bound, and
`spawnFailure` for any other exception in the `try` block (`Popen`
failing, a broken stdin pipe, ...). -/
inductive AgentOutcome where
  | exited : Int → String → AgentOutcome
  | timeoutExpired : AgentOutcome
  | spawnFailure : AgentOutcome
deriving DecidableEq

/-- `Overseer._spawn_agent` (lines 176–220).  The counter resets at
lines 199–200 execute only when `communicate` returned, i.e. on the
`exited` outcome; the `TimeoutExpired` and generic `except` handlers
return `None` without reaching them. -/
def spawnAgent (outcome : AgentOutcome) (st : OState) : Option String × OState :=
  match outcome with
  | .exited returncode stdout =>
    let st := { st with tokens_since_last_trigger := 0, prompt_count := 0 }
    ((if returncode = 0 then some stdout.trim else none), st)
  | .timeoutExpired => (none, st)
  | .spawnFailure => (none, st)

/-- An inbound hook event after `json.loads`, restricted to the four
fields `_process_event` reads.  `none` models the field being absent
from the JSON object. -/
structure Event where
  hook_event_name : Option String
  session_id : Option String
  transcript_path : Option String
  cwd : Option String
deriving DecidableEq

/-- `event.get("hook_event_name", "")` (line 289). -/
def evName (ev : Event) : String := ev.hook_event_name.getD ""

/-- Result of processing one event: the method's outcome (`ok` or the
exception it raises), whether `_spawn_agent` was awaited, and whether
`_should_trigger_agent` was consulted. -/
structure ProcessResult where
  res : Except String Unit
  dispatched : Bool
  consulted : Bool

/-- Lines 290–296 of `_process_event`: `self.session_id` is assigned
unconditionally from `event.get("session_id")` (so it becomes `None`
when the field is absent), while `transcript_path` and `cwd` are
guarded by `in event` membership tests. -/
def updateFields (st : OState) (ev : Event) : OState :=
  let st := { st with session_id := ev.session_id }
  let st := if ev.transcript_path.isSome
            then { st with transcript_path := ev.transcript_path } else st
  if ev.cwd.isSome then { st with cwd := ev.cwd } else st

/-- `Overseer._process_event` (lines 287–317).  Field updates happen
first; then `_calculate_new_tokens` runs, whose exception propagates
out of the method with the already-mutated state; then the branch on
the event name. -/
def processEvent (tok : String → Nat) (fs : FS) (cfg : Config)
    (outcome : AgentOutcome) (st : OState) (ev : Event) :
    ProcessResult × OState :=
  let event_name := evName ev
  let st := updateFields st ev
  match calcNewTokens tok fs st with
  | (.error e, wm) =>
    (⟨.error e, false, false⟩, { st with last_transcript_length := wm })
  | (.ok new_tokens, wm) =>
    let st := { st with
                last_transcript_length := wm,
                tokens_since_last_trigger :=
                  st.tokens_since_last_trigger + new_tokens }
    if event_name = "SessionEnd" then
      let (_, st) := spawnAgent outcome st
      (⟨.ok (), true, false⟩, { st with running := false })
    else if event_name = "UserPromptSubmit" then
      (⟨.ok (), false, false⟩, { st with prompt_count := st.prompt_count + 1 })
    else if event_name = "Stop" then
      let st := { st with response_count := st.response_count + 1 }
      if shouldTriggerAgent cfg st event_name then
        let (_, st) := spawnAgent outcome st
        (⟨.ok (), true, true⟩, st)
      else
        (⟨.ok (), false, true⟩, st)
    else
      (⟨.ok (), false, false⟩, st)

/-- What one inbound connection carries once decoded: either a message
`json.loads` rejects (with the exception's message), or an event
object. -/
inductive Inbound where
  | malformed : String → Inbound
  | event : Event → Inbound

/-- `Overseer._handle_client` (lines 266–285): the response string
written back, and the daemon state after the connection.  An exception
from `json.loads` leaves the state untouched; an exception escaping
`_process_event` is caught at line 279 with whatever mutations
`_process_event` made before raising. -/
def handleClient (tok : String → Nat) (fs : FS) (cfg : Config)
    (outcome : AgentOutcome) (st : OState) (inb : Inbound) :
    String × OState :=
  match inb with
  | .malformed e => (String.append "error: " e, st)
  | .event ev =>
    match processEvent tok fs cfg outcome st ev with
    | (⟨.ok _, _, _⟩, st) => ("ok", st)
    | (⟨.error e, _, _⟩, st) => (String.append "error: " e, st)

/-- One step of the event loop's environment: the transcript filesystem
at that moment, the dispatch outcome were a worker spawned, and the
event delivered. -/
structure Step where
  fs : FS
  outcome : AgentOutcome
  ev : Event

/-- State after processing one event (ignores the response). -/
def stepSt (tok : String → Nat) (cfg : Config) (st : OState) (s : Step) : OState :=
  (processEvent tok s.fs cfg s.outcome st s.ev).2

/-- Whether the result of processing was `ok` (no exception escaped). -/
def resOk : Except String Unit → Bool
  | .ok _ => true
  | .error _ => false

/-- Whether processing this event from this state raises no exception. -/
def stepOk (tok : String → Nat) (cfg : Config) (st : OState) (s : Step) : Bool :=
  resOk (processEvent tok s.fs cfg s.outcome st s.ev).1.res

/-- Whether processing this event from this state dispatches a worker. -/
def stepDispatched (tok : String → Nat) (cfg : Config) (st : OState) (s : Step) : Bool :=
  (processEvent tok s.fs cfg s.outcome st s.ev).1.dispatched

/-- The state after a sequence of events is processed in order. -/
def runEvents (tok : String → Nat) (cfg : Config) (st : OState) :
    List Step → OState
  | [] => st
  | s :: rest => runEvents tok cfg (stepSt tok cfg st s) rest

/-- Every event of the trace, run from this state, processes without
raising. -/
def okRun (tok : String → Nat) (cfg : Config) (st : OState) :
    List Step → Bool
  | [] => true
  | s :: rest => stepOk tok cfg st s && okRun tok cfg (stepSt tok cfg st s) rest

/-- Number of events of the trace named `Stop`. -/
def countStops (trace : List Step) : Nat :=
  trace.countP (fun s => evName s.ev = "Stop")

/-- The trigger rules exactly as the specification words them (§4.2):
first match wins over the five inputs (event name, response count,
prompt count, tokens-since-trigger, configuration).  Written from the
spec, to be compared against `shouldTriggerAgent`, which is written
from the code. -/
def specTrigger (cfg : Config) (event_name : String)
    (responseCount promptCount tokensSince : Nat) : Bool :=
  if cfg.trigger_on_first_response = true ∧ event_name = "Stop" ∧ responseCount = 1 then
    true
  else if cfg.trigger_mode = "tokens" then
    decide (tokensSince ≥ cfg.token_threshold)
  else
    decide (promptCount ≥ cfg.prompt_threshold)

/-- A concrete tokenizer for witnesses: token count = character count. -/
def tokLen : String → Nat := fun s => s.length

/-- A filesystem with no files. -/
def fsEmpty : FS := fun _ => none

/-- `DEFAULT_CONFIG` (lines 22–27). -/
def cfgDefault : Config :=
  { trigger_mode := "tokens", token_threshold := 10000,
    prompt_threshold := 5, trigger_on_first_response := true }

/-- The state right after `__init__` once `run` has set `running`. -/
def initialState : OState :=
  { running := true, session_id := none, transcript_path := none,
    cwd := none, prompt_count := 0, response_count := 0,
    tokens_since_last_trigger := 0, last_transcript_length := 0 }

/-- A mid-session state with nonzero counters, for the C1 analysis. -/
def stMid : OState :=
  { running := true, session_id := some "sess", transcript_path := some "t.jsonl",
    cwd := some "/proj", prompt_count := 3, response_count := 2,
    tokens_since_last_trigger := 5, last_transcript_length := 4 }

/-- A `Stop` event carrying no optional fields. -/
def evStopBare : Event :=
  { hook_event_name := some "Stop", session_id := none,
    transcript_path := none, cwd := none }

/-- A `SessionEnd` event carrying no optional fields. -/
def evSessionEndBare : Event :=
  { hook_event_name := some "SessionEnd", session_id := none,
    transcript_path := none, cwd := none }

/-- A transcript entry in which every piece is valid JSON, but whose
assistant content list holds a plain string instead of an object: the
loop at line 160 calls `.get` on it and raises `AttributeError`. -/
def assistantStrItem : JVal :=
  .jobj [("type", .jstr "assistant"),
         ("message", .jobj [("content", .jarr [.jstr "oops"])])]

/-- A filesystem holding one transcript file whose single line is the
valid-JSON-but-poisonous entry above. -/
def fsBad : FS :=
  fun p => if p = "t.jsonl" then some [.entry assistantStrItem] else none

/-- A session state pointing at the poisonous transcript, with a set
session id and a zero watermark. -/
def stBad : OState :=
  { running := true, session_id := some "sess", transcript_path := some "t.jsonl",
    cwd := none, prompt_count := 0, response_count := 0,
    tokens_since_last_trigger := 0, last_transcript_length := 0 }

/-- A filesystem holding one transcript file with a single valid line. -/
def fsOne : FS :=
  fun p => if p = "t.jsonl" then some [.entry (.jobj [])] else none

/-! ## Helper lemmas -/

theorem spawnAgent_running (o : AgentOutcome) (st : OState) :
    (spawnAgent o st).2.running = st.running := by
  cases o <;> simp [spawnAgent]

theorem spawnAgent_session_id (o : AgentOutcome) (st : OState) :
    (spawnAgent o st).2.session_id = st.session_id := by
  cases o <;> simp [spawnAgent]

theorem spawnAgent_transcript_path (o : AgentOutcome) (st : OState) :
    (spawnAgent o st).2.transcript_path = st.transcript_path := by
  cases o <;> simp [spawnAgent]

theorem spawnAgent_cwd (o : AgentOutcome) (st : OState) :
    (spawnAgent o st).2.cwd = st.cwd := by
  cases o <;> simp [spawnAgent]

theorem spawnAgent_response_count (o : AgentOutcome) (st : OState) :
    (spawnAgent o st).2.response_count = st.response_count := by
  cases o <;> simp [spawnAgent]

theorem spawnAgent_wm (o : AgentOutcome) (st : OState) :
    (spawnAgent o st).2.last_transcript_length = st.last_transcript_length := by
  cases o <;> simp [spawnAgent]

theorem calcNewTokens_wm_mono (tok : String → Nat) (fs : FS) (st : OState) :
    st.last_transcript_length ≤ (calcNewTokens tok fs st).2 := by
  by_cases h : (readTranscript fs st.transcript_path).length ≤ st.last_transcript_length
  · simp [calcNewTokens, h]
  · simp [calcNewTokens, h]
    omega

theorem updateFields_spec (st : OState) (ev : Event) :
    (updateFields st ev).session_id = ev.session_id ∧
    (updateFields st ev).transcript_path =
      (if ev.transcript_path.isSome then ev.transcript_path else st.transcript_path) ∧
    (updateFields st ev).cwd = (if ev.cwd.isSome then ev.cwd else st.cwd) ∧
    (updateFields st ev).running = st.running ∧
    (updateFields st ev).prompt_count = st.prompt_count ∧
    (updateFields st ev).response_count = st.response_count ∧
    (updateFields st ev).tokens_since_last_trigger = st.tokens_since_last_trigger ∧
    (updateFields st ev).last_transcript_length = st.last_transcript_length := by
  unfold updateFields
  cases h1 : ev.transcript_path.isSome <;> cases h2 : ev.cwd.isSome <;> simp [h1, h2]

theorem processEvent_session_fields (tok : String → Nat) (fs : FS) (cfg : Config)
    (o : AgentOutcome) (st : OState) (ev : Event) :
    (processEvent tok fs cfg o st ev).2.session_id = ev.session_id ∧
    (processEvent tok fs cfg o st ev).2.transcript_path =
      (if ev.transcript_path.isSome then ev.transcript_path else st.transcript_path) ∧
    (processEvent tok fs cfg o st ev).2.cwd =
      (if ev.cwd.isSome then ev.cwd else st.cwd) := by
  obtain ⟨hsid, htp, hcwd, -, -, -, -, -⟩ := updateFields_spec st ev
  rcases hc : calcNewTokens tok fs (updateFields st ev) with ⟨res, wm⟩
  cases res <;> simp only [processEvent, hc] <;> (repeat' split) <;>
    simp_all [spawnAgent_session_id, spawnAgent_transcript_path, spawnAgent_cwd]

theorem processEvent_rc (tok : String → Nat) (fs : FS) (cfg : Config)
    (o : AgentOutcome) (st : OState) (ev : Event) :
    (processEvent tok fs cfg o st ev).2.response_count =
      st.response_count +
        (if resOk (processEvent tok fs cfg o st ev).1.res = true ∧ evName ev = "Stop"
         then 1 else 0) := by
  obtain ⟨-, -, -, -, -, hrc, -, -⟩ := updateFields_spec st ev
  rcases hc : calcNewTokens tok fs (updateFields st ev) with ⟨res, wm⟩
  cases res <;> simp only [processEvent, hc] <;> (repeat' split) <;>
    simp_all [resOk, spawnAgent_response_count]

theorem processEvent_wm_mono (tok : String → Nat) (fs : FS) (cfg : Config)
    (o : AgentOutcome) (st : OState) (ev : Event) :
    st.last_transcript_length ≤
      (processEvent tok fs cfg o st ev).2.last_transcript_length := by
  obtain ⟨-, -, -, -, -, -, -, hwm⟩ := updateFields_spec st ev
  have hmono := calcNewTokens_wm_mono tok fs (updateFields st ev)
  rcases hc : calcNewTokens tok fs (updateFields st ev) with ⟨res, wm⟩
  rw [hc] at hmono
  cases res <;> simp only [processEvent, hc] <;> (repeat' split) <;>
    simp_all [spawnAgent_wm]

theorem processEvent_consulted (tok : String → Nat) (fs : FS) (cfg : Config)
    (o : AgentOutcome) (st : OState) (ev : Event) :
    (processEvent tok fs cfg o st ev).1.consulted = true → evName ev = "Stop" := by
  rcases hc : calcNewTokens tok fs (updateFields st ev) with ⟨res, wm⟩
  cases res <;> simp only [processEvent, hc] <;> (repeat' split) <;> simp_all

theorem processEvent_sessionEnd (tok : String → Nat) (fs : FS) (cfg : Config)
    (o : AgentOutcome) (st : OState) (ev : Event)
    (hname : evName ev = "SessionEnd")
    (hok : resOk (processEvent tok fs cfg o st ev).1.res = true) :
    (processEvent tok fs cfg o st ev).1.dispatched = true ∧
    (processEvent tok fs cfg o st ev).1.consulted = false ∧
    (processEvent tok fs cfg o st ev).2.running = false := by
  rcases hc : calcNewTokens tok fs (updateFields st ev) with ⟨res, wm⟩
  cases res with
  | error e =>
    exfalso
    simp [processEvent, hc, resOk] at hok
  | ok n =>
    simp [processEvent, hc, hname, spawnAgent_running]

theorem processEvent_stop_first_dispatch (tok : String → Nat) (fs : FS) (cfg : Config)
    (o : AgentOutcome) (st : OState) (ev : Event)
    (htofr : cfg.trigger_on_first_response = true)
    (hrc : st.response_count = 0)
    (hname : evName ev = "Stop")
    (hok : resOk (processEvent tok fs cfg o st ev).1.res = true) :
    (processEvent tok fs cfg o st ev).1.dispatched = true := by
  obtain ⟨-, -, -, -, -, hurc, -, -⟩ := updateFields_spec st ev
  rcases hc : calcNewTokens tok fs (updateFields st ev) with ⟨res, wm⟩
  cases res with
  | error e =>
    exfalso
    simp [processEvent, hc, resOk] at hok
  | ok n =>
    simp [processEvent, hc, hname, shouldTriggerAgent, htofr, hurc, hrc]

/-- The rule-1 condition, as evaluated inside the `Stop` branch (where
`response_count` has just been incremented), reads only the prior
response count. -/
theorem firstResponseRule_eval (cfg : Config) (st : OState) :
    firstResponseRule cfg { st with response_count := st.response_count + 1 } "Stop" =
      (cfg.trigger_on_first_response && st.response_count == 0) := by
  cases h : cfg.trigger_on_first_response <;>
    simp [firstResponseRule, h, beq_iff_eq]

theorem runEvents_append (tok : String → Nat) (cfg : Config) :
    ∀ (pre rest : List Step) (st : OState),
      runEvents tok cfg st (pre ++ rest) =
        runEvents tok cfg (runEvents tok cfg st pre) rest := by
  intro pre
  induction pre with
  | nil => intro rest st; rfl
  | cons s pre ih => intro rest st; simp [runEvents, ih]

theorem okRun_append (tok : String → Nat) (cfg : Config) :
    ∀ (pre rest : List Step) (st : OState),
      okRun tok cfg st (pre ++ rest) = true →
        okRun tok cfg st pre = true ∧
        okRun tok cfg (runEvents tok cfg st pre) rest = true := by
  intro pre
  induction pre with
  | nil => intro rest st h; exact ⟨rfl, h⟩
  | cons s pre ih =>
    intro rest st h
    simp only [List.cons_append, okRun, Bool.and_eq_true] at h
    obtain ⟨h1, h2⟩ := h
    obtain ⟨h3, h4⟩ := ih rest (stepSt tok cfg st s) h2
    exact ⟨by simp [okRun, h1, h3], by simpa [runEvents] using h4⟩

theorem runEvents_rc (tok : String → Nat) (cfg : Config) :
    ∀ (trace : List Step) (st : OState),
      okRun tok cfg st trace = true →
        (runEvents tok cfg st trace).response_count =
          st.response_count + countStops trace := by
  intro trace
  induction trace with
  | nil => intro st _; simp [runEvents, countStops]
  | cons s tr ih =>
    intro st h
    simp only [okRun, Bool.and_eq_true] at h
    obtain ⟨h1, h2⟩ := h
    have hstep := processEvent_rc tok s.fs cfg s.outcome st s.ev
    have hok' : resOk (processEvent tok s.fs cfg s.outcome st s.ev).1.res = true := h1
    rw [hok'] at hstep
    have : (stepSt tok cfg st s).response_count =
        st.response_count + (if evName s.ev = "Stop" then 1 else 0) := by
      simp only [stepSt, hstep]
      by_cases hn : evName s.ev = "Stop" <;> simp [hn]
    rw [runEvents, ih (stepSt tok cfg st s) h2, this]
    simp only [countStops, List.countP_cons]
    by_cases hn : evName s.ev = "Stop" <;> (simp [hn, countStops]; try omega)

theorem runEvents_wm_mono (tok : String → Nat) (cfg : Config) :
    ∀ (trace : List Step) (st : OState),
      st.last_transcript_length ≤
        (runEvents tok cfg st trace).last_transcript_length := by
  intro trace
  induction trace with
  | nil => intro st; exact Nat.le_refl _
  | cons s tr ih =>
    intro st
    exact Nat.le_trans
      (processEvent_wm_mono tok s.fs cfg s.outcome st s.ev)
      (ih (stepSt tok cfg st s))

/-! ## The claims -/

/-- Claim C4: the trigger decision is a pure function of (event name,
response count, prompt count, tokens-since-trigger, configuration),
rules evaluated in order with first match winning: fire if
`triggerOnFirstResponse` and the event is `Stop` and
`responseCount == 1`; else in tokens mode fire iff
`tokensSinceLastTrigger >= tokenThreshold`; else fire iff
`promptCount >= promptThreshold`.  `shouldTriggerAgent` is the
translation of `_should_trigger_agent`; `specTrigger` is the rule list
word for word from the specification. -/
theorem c4_trigger_policy_matches_spec (cfg : Config) (st : OState)
    (event_name : String) :
    shouldTriggerAgent cfg st event_name =
      specTrigger cfg event_name st.response_count st.prompt_count
        st.tokens_since_last_trigger := by
  unfold shouldTriggerAgent specTrigger
  cases h : cfg.trigger_on_first_response <;>
    by_cases hn : event_name = "Stop" <;>
    by_cases hr : st.response_count = 1 <;>
    by_cases hm : cfg.trigger_mode = "tokens" <;>
    simp [h, hn, hr, hm, beq_iff_eq, ge_iff_le]

/-- Claim C1 fails on the code: after a dispatch whose bounded wait
times out, the counters keep their prior values (the resets at lines
199–200 sit inside the `try:` block, after `communicate`, and the
`TimeoutExpired` handler returns without reaching them).  Here a state
with 5 accumulated tokens and 3 prompts goes through a timed-out
dispatch and neither counter is 0 afterwards. -/
theorem c1_counterexample :
    ¬ ((spawnAgent AgentOutcome.timeoutExpired stMid).2.tokens_since_last_trigger = 0 ∧
       (spawnAgent AgentOutcome.timeoutExpired stMid).2.prompt_count = 0) := by
  decide

/-- Claim C1 amended: once the dispatch's wait completes because the
worker process exited — with status 0 or any non-zero status —
`tokensSinceLastTrigger` and `promptCount` are both 0; but when the
dispatch ends in a timeout or in any other spawn failure, both
counters (and the rest of the state) are left exactly as they were. -/
theorem c1_amended_counters_reset_only_on_exit (st : OState) (rc : Int)
    (out : String) :
    ((spawnAgent (AgentOutcome.exited rc out) st).2.tokens_since_last_trigger = 0 ∧
     (spawnAgent (AgentOutcome.exited rc out) st).2.prompt_count = 0) ∧
    (spawnAgent AgentOutcome.timeoutExpired st).2 = st ∧
    (spawnAgent AgentOutcome.spawnFailure st).2 = st := by
  refine ⟨⟨rfl, rfl⟩, rfl, rfl⟩

/-- Claim C2 fails on the code for `session_id`: line 290 assigns
`self.session_id = event.get("session_id")` unconditionally, so an
event without a `session_id` field overwrites a previously set session
id with `None`.  Here the prior state has session id `"sess"`, the
event carries no `session_id`, and after processing the field is gone. -/
theorem c2_counterexample :
    (processEvent tokLen fsEmpty cfgDefault AgentOutcome.spawnFailure
        { stBad with transcript_path := none } evStopBare).2.session_id ≠
      { stBad with transcript_path := none : OState }.session_id := by
  decide

/-- Claim C2 amended: `transcript_path` and `cwd` are updated exactly
when the corresponding field is present in the event and are left
unchanged otherwise; `session_id`, however, is overwritten on every
event with the event's `session_id` field, becoming `None` when the
field is absent. -/
theorem c2_amended_field_updates (tok : String → Nat) (fs : FS) (cfg : Config)
    (o : AgentOutcome) (st : OState) (ev : Event) :
    (processEvent tok fs cfg o st ev).2.session_id = ev.session_id ∧
    (ev.transcript_path = none →
      (processEvent tok fs cfg o st ev).2.transcript_path = st.transcript_path) ∧
    (∀ p, ev.transcript_path = some p →
      (processEvent tok fs cfg o st ev).2.transcript_path = some p) ∧
    (ev.cwd = none → (processEvent tok fs cfg o st ev).2.cwd = st.cwd) ∧
    (∀ p, ev.cwd = some p → (processEvent tok fs cfg o st ev).2.cwd = some p) := by
  obtain ⟨hsid, htp, hcwd⟩ := processEvent_session_fields tok fs cfg o st ev
  refine ⟨hsid, ?_, ?_, ?_, ?_⟩
  · intro h; rw [htp]; simp [h]
  · intro p h; rw [htp]; simp [h]
  · intro h; rw [hcwd]; simp [h]
  · intro p h; rw [hcwd]; simp [h]

/-- Witness for the amended C2 at a concrete input: an event carrying
none of the optional fields leaves `transcript_path` unchanged. -/
theorem c2_witness :
    (processEvent tokLen fsEmpty cfgDefault AgentOutcome.spawnFailure
        stBad evStopBare).2.transcript_path = stBad.transcript_path := by
  exact (c2_amended_field_updates tokLen fsEmpty cfgDefault
    AgentOutcome.spawnFailure stBad evStopBare).2.1 rfl

/-- Claim C8: reading the transcript with no path set, or with a path
whose file does not exist, yields the empty sequence rather than an
error; each line is parsed independently, so removing skipped
malformed lines anywhere does not change the result and all lines
after a malformed one are still read; in particular a file with one
valid and one invalid JSON line yields a sequence of length 1. -/
theorem c8_transcript_reader_tolerant (fs : FS) (p : String)
    (ls₁ ls₂ : List LineContent) :
    readTranscript fs none = [] ∧
    (fs p = none → readTranscript fs (some p) = []) ∧
    parseLines (ls₁ ++ LineContent.malformed :: ls₂) = parseLines (ls₁ ++ ls₂) ∧
    (parseLines [LineContent.entry (JVal.jobj []), LineContent.malformed]).length = 1 ∧
    (parseLines [LineContent.malformed, LineContent.entry (JVal.jobj [])]).length = 1 := by
  refine ⟨rfl, ?_, ?_, rfl, rfl⟩
  · intro h; simp [readTranscript, h]
  · induction ls₁ with
    | nil => rfl
    | cons l ls ih => cases l <;> simp [parseLines, ih]

/-- Witness for C8 at a concrete input: a filesystem with no files
gives the empty sequence for any path. -/
theorem c8_witness : readTranscript fsEmpty (some "anywhere") = [] := by
  exact (c8_transcript_reader_tolerant fsEmpty "anywhere" [] []).2.1 rfl

/-- Claim C9 fails on the code at window size 0: the Python slice
`messages[-0:]` is `messages[0:]`, the whole list, so asking for a
window of 0 over a one-entry transcript returns 1 entry, not at most
0. -/
theorem c9_counterexample :
    ¬ ((readTranscriptWindow fsOne (some "t.jsonl") 0).length ≤ 0) := by
  decide

/-- Claim C9 amended: for every positive window size N the windowed
read returns at most the last N entries of the full parsed sequence,
in their original order (it is a suffix of it); the default window
size is 50; for N = 0 the code returns the entire sequence (the
`[-0:]` slice), not at most 0 entries. -/
theorem c9_amended_window (fs : FS) (tp : Option String) (n : Nat) :
    (0 < n →
      (readTranscriptWindow fs tp n).length ≤ n ∧
      (readTranscriptWindow fs tp n).IsSuffix (readTranscript fs tp)) ∧
    readTranscriptWindow fs tp 0 = readTranscript fs tp ∧
    readTranscriptWindow fs tp = readTranscriptWindow fs tp 50 := by
    refine ⟨?_, ?_, rfl⟩
    · intro hn
      have hz : ¬ (n = 0) := Nat.pos_iff_ne_zero.mp hn
      constructor
      · simp [readTranscriptWindow, hz]
        omega
      · simp only [readTranscriptWindow, if_neg hz]
        exact List.drop_suffix _ _
    · simp [readTranscriptWindow]

/-- Witness for the amended C9 at a concrete input: a window of 1 over
a one-entry transcript has at most 1 entry. -/
theorem c9_witness : (readTranscriptWindow fsOne (some "t.jsonl") 1).length ≤ 1 := by
  exact ((c9_amended_window fsOne (some "t.jsonl") 1).1 (by decide)).1

/-- Claim C6: the new-token calculation returns 0 and leaves the
watermark unchanged whenever the current transcript length is not
greater than the watermark, and otherwise advances the watermark to
the current length; the watermark never decreases, neither in one call
nor across any sequence of processed events; and a second call right
after a first one, with the transcript unchanged, returns 0. -/
theorem c6_watermark_monotone_idempotent (tok : String → Nat) (fs : FS)
    (st : OState) (cfg : Config) (trace : List Step) :
    ((readTranscript fs st.transcript_path).length ≤ st.last_transcript_length →
      calcNewTokens tok fs st = (Except.ok 0, st.last_transcript_length)) ∧
    (st.last_transcript_length < (readTranscript fs st.transcript_path).length →
      (calcNewTokens tok fs st).2 = (readTranscript fs st.transcript_path).length) ∧
    st.last_transcript_length ≤ (calcNewTokens tok fs st).2 ∧
    calcNewTokens tok fs
        { st with last_transcript_length := (calcNewTokens tok fs st).2 } =
      (Except.ok 0, (calcNewTokens tok fs st).2) ∧
    st.last_transcript_length ≤ (runEvents tok cfg st trace).last_transcript_length := by
  refine ⟨?_, ?_, calcNewTokens_wm_mono tok fs st, ?_, runEvents_wm_mono tok cfg trace st⟩
  · intro h; simp [calcNewTokens, h]
  · intro h; simp [calcNewTokens, Nat.not_le.mpr h]
  · have hlen : (readTranscript fs st.transcript_path).length ≤
        (calcNewTokens tok fs st).2 := by
      by_cases h : (readTranscript fs st.transcript_path).length ≤
          st.last_transcript_length
      · simp [calcNewTokens, h]
      · simp [calcNewTokens, h]
    generalize hw : (calcNewTokens tok fs st).2 = w at hlen ⊢
    simp [calcNewTokens, hlen]

/-- Witness for C6 at a concrete input: on an empty filesystem with a
zero watermark the calculation returns 0 tokens and watermark 0. -/
theorem c6_witness : calcNewTokens tokLen fsEmpty initialState = (Except.ok 0, 0) := by
  exact (c6_watermark_monotone_idempotent tokLen fsEmpty initialState
    cfgDefault []).1 (by decide)

/-- Claim C7: a `SessionEnd` event whose processing completes
dispatches the worker without consulting the trigger policy — for
every state, in particular when all counters are zero — and then
clears the running flag so the daemon stops; the trigger policy is
consulted only while processing a `Stop` event. -/
theorem c7_session_end_unconditional_dispatch (tok : String → Nat) (fs : FS)
    (cfg : Config) (o : AgentOutcome) (st : OState) (ev : Event) :
    (evName ev = "SessionEnd" →
      resOk (processEvent tok fs cfg o st ev).1.res = true →
      (processEvent tok fs cfg o st ev).1.dispatched = true ∧
      (processEvent tok fs cfg o st ev).1.consulted = false ∧
      (processEvent tok fs cfg o st ev).2.running = false) ∧
    ((processEvent tok fs cfg o st ev).1.consulted = true → evName ev = "Stop") := by
  exact ⟨fun h1 h2 => processEvent_sessionEnd tok fs cfg o st ev h1 h2,
         processEvent_consulted tok fs cfg o st ev⟩

/-- Witness for C7 at a concrete input: a `SessionEnd` event arriving
with every counter at zero still dispatches, and stops the daemon. -/
theorem c7_witness :
    (processEvent tokLen fsEmpty cfgDefault (AgentOutcome.exited 0 "summary")
        initialState evSessionEndBare).1.dispatched = true ∧
    (processEvent tokLen fsEmpty cfgDefault (AgentOutcome.exited 0 "summary")
        initialState evSessionEndBare).2.running = false := by
  have h := (c7_session_end_unconditional_dispatch tokLen fsEmpty cfgDefault
    (AgentOutcome.exited 0 "summary") initialState evSessionEndBare).1
    (by decide) (by decide)
  exact ⟨h.1, h.2.2⟩

/-- Claim C3 fails on the code: an exception raised inside
`_process_event` is answered with an `"error: …"` string, but the
daemon state is not the same as before the connection — here the
session id set beforehand has been overwritten with `None` and the
transcript watermark has advanced, because those mutations happen
before the token loop raises. -/
theorem c3_counterexample :
    (handleClient tokLen fsBad cfgDefault AgentOutcome.spawnFailure stBad
        (Inbound.event evStopBare)).1 ≠ "ok" ∧
    (handleClient tokLen fsBad cfgDefault AgentOutcome.spawnFailure stBad
        (Inbound.event evStopBare)).2 ≠ stBad := by
  decide

/-- Claim C3 amended: the response written back is `"ok"` when the
handler succeeds and `"error: <message>"` on a handler exception; when
the exception happens while decoding the inbound message (malformed
event JSON), the daemon state is exactly as before; but an exception
escaping `_process_event` leaves the state with whatever mutations
were made before the raise. -/
theorem c3_amended_response_protocol (tok : String → Nat) (fs : FS)
    (cfg : Config) (o : AgentOutcome) (st : OState) :
    (∀ e, handleClient tok fs cfg o st (Inbound.malformed e) =
        (String.append "error: " e, st)) ∧
    (∀ ev, resOk (processEvent tok fs cfg o st ev).1.res = true →
        handleClient tok fs cfg o st (Inbound.event ev) =
          ("ok", (processEvent tok fs cfg o st ev).2)) ∧
    (∀ ev e, (processEvent tok fs cfg o st ev).1.res = Except.error e →
        handleClient tok fs cfg o st (Inbound.event ev) =
          (String.append "error: " e, (processEvent tok fs cfg o st ev).2)) := by
  refine ⟨fun e => rfl, ?_, ?_⟩
  · intro ev h
    rcases hp : processEvent tok fs cfg o st ev with ⟨⟨res, d, c⟩, st2⟩
    rw [hp] at h
    cases res with
    | ok u => simp [handleClient, hp]
    | error e => simp [resOk] at h
  · intro ev e h
    rcases hp : processEvent tok fs cfg o st ev with ⟨⟨res, d, c⟩, st2⟩
    rw [hp] at h
    cases res with
    | ok u => exact absurd h (by simp)
    | error e2 =>
      have he : e2 = e := by simpa using h
      subst he
      simp [handleClient, hp]

/-- Witness for the amended C3 at a concrete input: a malformed
inbound message is answered with the error string and leaves the state
untouched. -/
theorem c3_witness :
    handleClient tokLen fsEmpty cfgDefault AgentOutcome.spawnFailure initialState
        (Inbound.malformed "Expecting value") =
      (String.append "error: " "Expecting value", initialState) := by
  exact (c3_amended_response_protocol tokLen fsEmpty cfgDefault
    AgentOutcome.spawnFailure initialState).1 "Expecting value"

/-- Claim C10: there is a transcript in which every line is valid JSON
— here a single assistant entry whose message content list holds a
plain string — on which the new-token calculation raises instead of
returning a count (for every tokenizer: the exception precedes any
token counting), so the inbound event is answered with
`"error: <message>"` rather than `"ok"`; and the watermark was already
advanced past that entry before the exception, so a later calculation
over the unchanged transcript returns 0 and never counts it. -/
theorem c10_valid_json_token_calc_exception (tok : String → Nat) :
    calcNewTokens tok fsBad stBad =
      (Except.error "AttributeError: object has no attribute get", 1) ∧
    (handleClient tok fsBad cfgDefault AgentOutcome.spawnFailure stBad
        (Inbound.event evStopBare)).1 =
      String.append "error: " "AttributeError: object has no attribute get" ∧
    (handleClient tok fsBad cfgDefault AgentOutcome.spawnFailure stBad
        (Inbound.event evStopBare)).2.last_transcript_length = 1 ∧
    (calcNewTokens tok fsBad
        (handleClient tok fsBad cfgDefault AgentOutcome.spawnFailure stBad
          (Inbound.event evStopBare)).2).1 = Except.ok 0 := by
  refine ⟨rfl, rfl, rfl, rfl⟩

/-- Claim C5: with `triggerOnFirstResponse` on, over any sequence of
events each of which processes without exception from a fresh daemon
state (`responseCount = 0`), the first-response rule evaluates true at
a `Stop` event exactly when no `Stop` came before it — so it fires
exactly once, at the first `Stop`, whatever the token and prompt
counters and thresholds are — and where it holds, a worker dispatch is
forced; `responseCount` equals the number of `Stop` events processed,
having been incremented on each one and never reset. -/
theorem c5_first_response_exactly_once (tok : String → Nat) (cfg : Config)
    (st0 : OState) (pre post : List Step) (s : Step)
    (htofr : cfg.trigger_on_first_response = true)
    (hrc : st0.response_count = 0)
    (hok : okRun tok cfg st0 (pre ++ s :: post) = true) :
    (evName s.ev = "Stop" →
      (firstResponseRule cfg
          { runEvents tok cfg st0 pre with
            response_count := (runEvents tok cfg st0 pre).response_count + 1 }
          (evName s.ev) = true
        ↔ countStops pre = 0)) ∧
    (evName s.ev = "Stop" → countStops pre = 0 →
      stepDispatched tok cfg (runEvents tok cfg st0 pre) s = true) ∧
    (runEvents tok cfg st0 pre).response_count = countStops pre := by
  obtain ⟨hokpre, hokrest⟩ := okRun_append tok cfg pre (s :: post) st0 hok
  have hcount : (runEvents tok cfg st0 pre).response_count = countStops pre := by
    rw [runEvents_rc tok cfg pre st0 hokpre, hrc, Nat.zero_add]
  refine ⟨?_, ?_, hcount⟩
  · intro hname
    rw [hname, firstResponseRule_eval, htofr, hcount]
    simp [beq_iff_eq]
  · intro hname hzero
    have hsok : stepOk tok cfg (runEvents tok cfg st0 pre) s = true := by
      simp only [okRun, Bool.and_eq_true] at hokrest
      exact hokrest.1
    exact processEvent_stop_first_dispatch tok s.fs cfg s.outcome
      (runEvents tok cfg st0 pre) s.ev htofr (by rw [hcount, hzero]) hname hsok

/-- Witness for C5 at a concrete input: from a fresh state, a single
`Stop` event (with no prior `Stop`) forces a dispatch. -/
theorem c5_witness :
    stepDispatched tokLen cfgDefault (runEvents tokLen cfgDefault initialState [])
      (Step.mk fsEmpty (AgentOutcome.exited 0 "") evStopBare) = true := by
  have h := c5_first_response_exactly_once tokLen cfgDefault initialState []
    [] (Step.mk fsEmpty (AgentOutcome.exited 0 "") evStopBare) rfl rfl (by decide)
  exact h.2.1 rfl rfl

